import Mathlib

/-!
Verification of the data-transformer-app record transformation core.

The development shallowly embeds the Python sources
`src/data_transformer_core/{engine.py, oc_strategies.py, us_fl_strategies.py,
transformer.py, lambda_handler.py}`.  Python runtime values are modelled by
the inductive `Value`; dictionaries are association lists with first-match
lookup; code that can raise is embedded in `Except String`.
-/

/-- A Python runtime value as it occurs in staged records, configuration
fragments and transformation outputs (JSON-compatible data plus `None`). -/
inductive Value where
  | none  : Value
  | str   : String → Value
  | int   : Int → Value
  | bool  : Bool → Value
  | list  : List Value → Value
  | dict  : List (String × Value) → Value

/-- A Python `dict[str, Any]`: an association list with first-match lookup
(keys coming from a Python dict are unique). -/
abbrev PyDict := List (String × Value)

/-- Python truthiness (`bool(v)`): `None`, `""`, `0`, `False`, `[]` and
`\x7b\x7d` are falsy, everything else is truthy. -/
def pyTruthy : Value → Bool
  | .none => false
  | .str s => s ≠ ""
  | .int n => n ≠ 0
  | .bool b => b
  | .list l => !l.isEmpty
  | .dict d => !d.isEmpty

mutual

/-- Python `repr(v)` for the modelled values (string escapes inside nested
strings are not reproduced; no claim exercises them). -/
def pyRepr : Value → String
  | .none => "None"
  | .str s => "'" ++ s ++ "'"
  | .int n => toString n
  | .bool b => if b then "True" else "False"
  | .list l => "[" ++ pyReprList l ++ "]"
  | .dict d => "\x7b" ++ pyReprDict d ++ "\x7d"

/-- `repr` of the elements of a Python list, comma separated. -/
def pyReprList : List Value → String
  | [] => ""
  | [v] => pyRepr v
  | v :: rest => pyRepr v ++ ", " ++ pyReprList rest

/-- `repr` of the items of a Python dict, comma separated. -/
def pyReprDict : List (String × Value) → String
  | [] => ""
  | [(k, v)] => "'" ++ k ++ "': " ++ pyRepr v
  | (k, v) :: rest => "'" ++ k ++ "': " ++ pyRepr v ++ ", " ++ pyReprDict rest

end

/-- Python `str(v)`: identity on strings, `repr`-like otherwise. -/
def pyStr : Value → String
  | .str s => s
  | v => pyRepr v

/-- Python `s.strip()`: remove leading and trailing whitespace (the ASCII
whitespace characters space, tab, CR, LF that occur in the data). -/
def pyStrip (s : String) : String :=
  String.mk (((s.data.dropWhile Char.isWhitespace).reverse.dropWhile Char.isWhitespace).reverse)

/-- Python `==` between a value and a string literal: true exactly when the
value is that very string (no standard type equals a `str` otherwise). -/
def valueEqStr (v : Value) (s : String) : Bool :=
  match v with
  | .str t => t = s
  | _ => false

/-- `v is None` (identity with the `None` singleton). -/
def Value.isNone : Value → Bool
  | .none => true
  | _ => false

/-- `d.get(k)` on a `dict[str, Any]` already known to be a dict, with default
`None` (Python's `dict.get` one-argument form). -/
def pyGet (d : PyDict) (k : String) : Value :=
  match d.lookup k with
  | some v => v
  | Option.none => Value.none

/-- `d.get(k, default)` on a `dict[str, Any]` already known to be a dict. -/
def pyGetD (d : PyDict) (k : String) (dflt : Value) : Value :=
  match d.lookup k with
  | some v => v
  | Option.none => dflt

/-- `receiver.get(key)` with Python dynamics: a non-dict receiver has no
`get` attribute (AttributeError); an unhashable key (list/dict) raises
TypeError; a hashable non-string key is simply absent from a string-keyed
dict and yields `None`. -/
def pyAttrGet (receiver : Value) (key : Value) : Except String Value :=
  match receiver with
  | .dict d =>
    match key with
    | .str s => .ok (pyGet d s)
    | .list _ => .error "TypeError: unhashable type: 'list'"
    | .dict _ => .error "TypeError: unhashable type: 'dict'"
    | _ => .ok Value.none
  | _ => .error "AttributeError: 'object' has no attribute 'get'"

/-- `receiver.get(key, default)` with Python dynamics (string keys only are
ever present; non-dict receivers raise AttributeError). -/
def pyAttrGetD (receiver : Value) (key : String) (dflt : Value) : Except String Value :=
  match receiver with
  | .dict d => .ok (pyGetD d key dflt)
  | _ => .error "AttributeError: 'object' has no attribute 'get'"

/-- `for x in v`: lists iterate their elements, strings their characters
(as 1-character strings), dicts their keys; other values raise TypeError. -/
def pyIter (v : Value) : Except String (List Value) :=
  match v with
  | .list l => .ok l
  | .str s => .ok (s.toList.map fun c => Value.str (String.singleton c))
  | .dict d => .ok (d.map fun kv => Value.str kv.1)
  | _ => .error "TypeError: object is not iterable"

/-- `d[k] = v` on an insertion-ordered Python dict: overwrite in place when
the key exists, append otherwise. -/
def pySet (d : PyDict) (k : String) (v : Value) : PyDict :=
  match d with
  | [] => [(k, v)]
  | (k', v') :: rest => if k' = k then (k, v) :: rest else (k', v') :: pySet rest k v

/-! ## Transformation strategies (`oc_strategies.py`, `us_fl_strategies.py`)

Each Python strategy class carries its validated config; the instances are
modelled as one inductive.  None of the `transform` bodies can raise. -/

/-- An instantiated transformation strategy, as produced by the factories
registered in `strategy_registration.create_strategy_registry`. -/
inductive Strategy where
  | directMapping : Strategy
  | fixedValue (fixed_value : Value) : Strategy
  | lookupMapping (mapping_file : Value) (mapping_data : PyDict) : Strategy
  | parseDate : Strategy
  | determineBranchStatus : Strategy
  | buildHeadquartersAddress : Strategy
  | buildMailingAddress : Strategy
  | buildOfficersArray : Strategy
  | buildAllAttributes : Strategy
  | buildIdentifiers : Strategy

/-- `LookupMappingStrategy.transform` (oc_strategies.py:54-58): `None` or
`""` input returns `None`; otherwise `mapping_data.get(str(value).strip(), value)`. -/
def LookupMappingStrategy.transform (mapping_data : PyDict) (value : Value) : Value :=
  if value.isNone || valueEqStr value "" then Value.none
  else pyGetD mapping_data (pyStrip (pyStr value)) value

/-- `ParseDateStrategy.transform` (us_fl_strategies.py:55-64): falsy input or
`len(str(value)) != 8` returns `None`; otherwise the string is sliced as
`MMDDYYYY` and reassembled as `f"\x7byear\x7d-\x7bmonth\x7d-\x7bday\x7d"`
— no digit validation occurs and the `except` clause is unreachable. -/
def ParseDateStrategy.transform (value : Value) : Value :=
  if !pyTruthy value || (pyStr value).length ≠ 8 then Value.none
  else
    let s := pyStr value
    Value.str (s.drop 4 ++ "-" ++ s.take 2 ++ "-" ++ (s.drop 2).take 2)

/-- `DetermineBranchStatusStrategy.transform` (us_fl_strategies.py:73-82). -/
def DetermineBranchStatusStrategy.transform (value : Value) : Value :=
  if !pyTruthy value then Value.none
  else
    let filing_type := pyStrip (pyStr value)
    if filing_type = "FOR" || filing_type = "FLL" then Value.str "true"
    else if filing_type = "DOM" then Value.str "false"
    else Value.none

/-- `strategy.transform(input_value)` for every registered strategy.
`DirectMappingStrategy` returns its input, `FixedValueStrategy` its stored
constant, and the `Build*` placeholders return `None`, `[]` or `\x7b\x7d`
(us_fl_strategies.py:91-142). -/
def Strategy.transform : Strategy → Value → Value
  | .directMapping, v => v
  | .fixedValue fv, _ => fv
  | .lookupMapping _ md, v => LookupMappingStrategy.transform md v
  | .parseDate, v => ParseDateStrategy.transform v
  | .determineBranchStatus, v => DetermineBranchStatusStrategy.transform v
  | .buildHeadquartersAddress, _ => Value.none
  | .buildMailingAddress, _ => Value.none
  | .buildOfficersArray, _ => Value.list []
  | .buildAllAttributes, _ => Value.dict []
  | .buildIdentifiers, _ => Value.list []

/-- `StrategyFactoryRegistry.create_strategy(TransformationStrategy, name,
field_config, mapping_data=...)`.

Modelled from the spec: the `StrategyFactoryRegistry` class itself lives in
the external `oc_pipeline_bus` library; §4.1 of the spec fixes its contract —
look up the factory registered under the name, call `factory.validate(raw)`
(raising a configuration error on missing required sub-keys), then
`factory.create(validated, **context)`, and raise `UnknownStrategyError`
when no factory is registered under the name.  The registered names and the
`validate`/`create` bodies are taken from `register_oc_strategies`
(oc_strategies.py:114-118) and `register_us_fl_strategies`
(us_fl_strategies.py:257-266); `FixedValueFactory.validate` raises when
`"fixed_value" not in config` (oc_strategies.py:80-84),
`LookupMappingFactory.validate` when `"mapping_file" not in config`, and
`LookupMappingFactory.create` reads `kwargs.get("mapping_data", \x7b\x7d)`.
A non-string strategy name has no registration and also fails the lookup. -/
def create_strategy (name : Value) (field_config : PyDict) (mapping_data : PyDict) :
    Except String Strategy :=
  match name with
  | .str "oc.direct_mapping" => .ok .directMapping
  | .str "oc.fixed_value" =>
    match field_config.lookup "fixed_value" with
    | some v => .ok (.fixedValue v)
    | Option.none => .error "ValueError: fixed_value is required for oc.fixed_value strategy"
  | .str "oc.lookup_mapping_file" =>
    match field_config.lookup "mapping_file" with
    | some mf => .ok (.lookupMapping mf mapping_data)
    | Option.none => .error "ValueError: mapping_file is required for oc.lookup_mapping_file strategy"
  | .str "us_fl.parse_date" => .ok .parseDate
  | .str "us_fl.determine_branch_status" => .ok .determineBranchStatus
  | .str "us_fl.build_headquarters_address" => .ok .buildHeadquartersAddress
  | .str "us_fl.build_mailing_address" => .ok .buildMailingAddress
  | .str "us_fl.build_officers_array" => .ok .buildOfficersArray
  | .str "us_fl.build_all_attributes" => .ok .buildAllAttributes
  | .str "us_fl.build_identifiers" => .ok .buildIdentifiers
  | _ => .error "UnknownStrategyError"

/-! ## Transform engine (`engine.py`) -/

/-- `.items()` on a value: only a dict has it; its items are the key/value
pairs in insertion order. -/
def pyItems (v : Value) : Except String (List (String × Value)) :=
  match v with
  | .dict d => .ok d
  | _ => .error "AttributeError: 'object' has no attribute 'items'"

/-- `SnapshotId(ocid=..., bid=...)` (`oc_pipeline_bus.identifiers`): the
addressing key of one record version; the fields are whatever values the
caller extracted. -/
structure SnapshotId where
  ocid : Value
  bid : Value

/-- `TransformationResult` (engine.py:23-31), with the same defaults as the
Python dataclass. -/
structure TransformationResult where
  success : Bool
  transformed_data : Option PyDict := Option.none
  error_message : Option String := Option.none
  skipped : Bool := false
  skip_reason : Option String := Option.none

/-- The state of a constructed `TransformEngine` (engine.py:37-45): the
configuration dict and the mapping tables loaded by `_load_mapping_files`
(keyed by logical mapping name; file I/O itself is outside the engine's
per-record logic). -/
structure TransformEngine where
  config : PyDict
  mapping_data : PyDict

/-- The body of the `for condition in skip_conditions` loop
(engine.py:71-83).  A non-dict condition raises AttributeError at
`condition.get`; conditions with a falsy `field` or `operator` are passed
over; otherwise `value = data.get(field)` is fetched (this can raise for a
non-dict `data` or an unhashable `field`) and the blank test
`operator == "blank" and (not value or str(value).strip() == "")` decides. -/
def skipConditionLoop (data : Value) : List Value → Except String (Bool × Option String)
  | [] => .ok (false, Option.none)
  | condition :: rest =>
    match condition with
    | .dict cd =>
      let field := pyGet cd "field"
      let operator := pyGet cd "operator"
      if !pyTruthy field || !pyTruthy operator then skipConditionLoop data rest
      else
        match pyAttrGet data field with
        | .error e => .error e
        | .ok value =>
          if valueEqStr operator "blank" && (!pyTruthy value || pyStrip (pyStr value) = "")
          then .ok (true, some ("Field " ++ pyStr field ++ " is blank"))
          else skipConditionLoop data rest
    | _ => .error "AttributeError: 'object' has no attribute 'get'"

/-- `TransformEngine._should_skip_record` (engine.py:66-83). -/
def TransformEngine.should_skip_record (e : TransformEngine) (data : Value) :
    Except String (Bool × Option String) :=
  match pyAttrGetD (pyGetD e.config "validation_rules" (Value.dict []))
      "skip_conditions" (Value.list []) with
  | .error err => .error err
  | .ok skip_conditions =>
    match pyIter skip_conditions with
    | .error err => .error err
    | .ok conds => skipConditionLoop data conds

/-- `TransformEngine._apply_transformation` (engine.py:85-121): read
`transformation_logic` and `input_source` from the field config; a falsy
`transformation_logic` yields `None`; the input value is
`data.get(input_source)` when `input_source` is truthy (this lookup sits
before the `try` and can raise), else `None`; then strategy creation and
invocation run inside `try/except`, any failure falling back to the raw
input value.  Every registered strategy has a `transform` attribute, so the
`hasattr` guard always passes, and no `transform` body raises. -/
def TransformEngine.apply_transformation (e : TransformEngine) (field_config : PyDict)
    (data : Value) : Except String Value :=
  if !pyTruthy (pyGet field_config "transformation_logic") then .ok Value.none
  else
    match (if pyTruthy (pyGet field_config "input_source") then
        pyAttrGet data (pyGet field_config "input_source")
      else .ok Value.none) with
    | .error err => .error err
    | .ok input_value =>
      match create_strategy (pyGet field_config "transformation_logic") field_config
          e.mapping_data with
      | .ok strategy => .ok (strategy.transform input_value)
      | .error _ => .ok input_value

/-- The `for field_name, field_config in company_schema.items()` loop of
`transform_record` (engine.py:139-152): each field runs under its own
`try/except`, so a non-dict `field_config` (AttributeError at `.get`) or a
raising input lookup merely skips the field; a non-`None` transformed value
is stored under the field name. -/
def transformFieldsLoop (e : TransformEngine) (data : Value) :
    List (String × Value) → PyDict → PyDict
  | [], acc => acc
  | (field_name, field_config) :: rest, acc =>
    let acc' :=
      match field_config with
      | .dict fc =>
        match e.apply_transformation fc data with
        | .ok v => if v.isNone then acc else pySet acc field_name v
        | .error _ => acc
      | _ => acc
    transformFieldsLoop e data rest acc'

/-- The body of `transform_record` inside its outer `try` (engine.py:125-157);
an `.error` is what reaches the outer `except Exception`. -/
def TransformEngine.transform_record_checked (e : TransformEngine) (staged_data : Value) :
    Except String TransformationResult :=
  match e.should_skip_record staged_data with
  | .error err => .error err
  | .ok (true, skip_reason) =>
    .ok { success := true, skipped := true, skip_reason := skip_reason }
  | .ok (false, _) =>
    match pyItems (pyGetD e.config "company" (Value.dict [])) with
    | .error err => .error err
    | .ok company_schema =>
      .ok { success := true,
            transformed_data := some (transformFieldsLoop e staged_data company_schema []) }

/-- `TransformEngine.transform_record` (engine.py:123-169): the outer
`except Exception` turns any record-level exception into
`TransformationResult(success=False, error_message=str(e))`. -/
def TransformEngine.transform_record (e : TransformEngine) (_snapshot_id : SnapshotId)
    (staged_data : Value) : TransformationResult :=
  match e.transform_record_checked staged_data with
  | .ok r => r
  | .error err => { success := false, error_message := some err }

/-- Explicit state-passing form of `transform_record`.  Every operation the
source performs on `staged_data`, `self.config`, `self.mapping_data` and the
registry is a read (`dict.get`, `.items()`, `str(...)`, strategy
construction from fresh objects); the single write target is the fresh
`transformed_data` dict allocated at engine.py:136.  The state-passing
embedding therefore returns the engine and the staged data unchanged. -/
def TransformEngine.transform_record_st (e : TransformEngine) (snapshot_id : SnapshotId)
    (staged_data : Value) : TransformationResult × TransformEngine × Value :=
  (e.transform_record snapshot_id staged_data, e, staged_data)

/-! ## Pipeline bus (external collaborator, modelled from the spec §6) -/

mutual

/-- Python `==` on the modelled values (structural; the cross-type numeric
equalities of Python, such as `True == 1`, are not exercised by snapshot
addressing, which compares identifier strings). -/
def Value.beq : Value → Value → Bool
  | .none, .none => true
  | .str a, .str b => a = b
  | .int a, .int b => a = b
  | .bool a, .bool b => a = b
  | .list a, .list b => valueListBeq a b
  | .dict a, .dict b => valueDictBeq a b
  | _, _ => false

/-- Elementwise `Value.beq` on lists. -/
def valueListBeq : List Value → List Value → Bool
  | [], [] => true
  | a :: as, b :: bs => Value.beq a b && valueListBeq as bs
  | _, _ => false

/-- Itemwise `Value.beq` on dicts. -/
def valueDictBeq : List (String × Value) → List (String × Value) → Bool
  | [], [] => true
  | (k₁, v₁) :: as, (k₂, v₂) :: bs => (k₁ = k₂ : Bool) && Value.beq v₁ v₂ && valueDictBeq as bs
  | _, _ => false

end

/-- The snapshot store behind the external `DataPipelineBus`.  Modelled from
the spec: §6 specifies `get_snapshot(id, stage)` returning the stored
payload or signalling not-found distinguishably, and `put_snapshot(id,
metadata, payload)` as a durable write; §4.4 fixes that the write attaches
the payload as the "transformed"-stage snapshot of the same `SnapshotId`. -/
structure BusState where
  snapshots : List ((Value × Value × String) × Value)

/-- Address equality for snapshots: same ocid, bid and stage. -/
def busKeyBeq : Value × Value × String → Value × Value × String → Bool
  | (o₁, b₁, s₁), (o₂, b₂, s₂) => Value.beq o₁ o₂ && Value.beq b₁ b₂ && (s₁ = s₂ : Bool)

/-- `bus.get_snapshot_json(snapshot_id, stage=...)`.  Modelled from the spec
(§6): returns the stored payload, raising not-found when no snapshot exists
at that address. -/
def DataPipelineBus.get_snapshot_json (bus : BusState) (snapshot_id : SnapshotId)
    (stage : String) : Except String Value :=
  match bus.snapshots.find? (fun entry => busKeyBeq entry.1 (snapshot_id.ocid, snapshot_id.bid, stage)) with
  | some entry => .ok entry.2
  | Option.none => .error "NotFound: no snapshot at this id and stage"

/-- `bus.post_snapshot_json(snapshot_id, metadata, payload)`.  Modelled from
the spec (§4.4, §6): a durable write of the payload as the
"transformed"-stage snapshot for the id; the metadata accompanies the write
and is not read back by this core. -/
def DataPipelineBus.post_snapshot_json (bus : BusState) (snapshot_id : SnapshotId)
    (_metadata : PyDict) (payload : Value) : BusState :=
  ⟨((snapshot_id.ocid, snapshot_id.bid, "transformed"), payload) :: bus.snapshots⟩

/-! ## Transformer orchestration façade (`transformer.py`) -/

/-- The change event delivered by `bus.get_change_event()` (external;
modelled from the spec §3: `\x7bevent kind, source stage, SnapshotId\x7d`). -/
structure ChangeEvent where
  event : String
  stage : String
  sid_ocid : Value
  sid_bid : Value

/-- How one call of `Transformer.process_record_added_event` ends (besides
raising): the record was transformed and stored, skipped, or the change
event was not actionable and only a warning was logged. -/
inductive ProcessOutcome where
  | completed : ProcessOutcome
  | skippedRecord (reason : Option String) : ProcessOutcome
  | ignored : ProcessOutcome

/-- The metadata dict built at transformer.py:46-50 (the timestamp comes
from the external clock `bus._utcnow_iso()`, passed in here). -/
def transformMetadata (now : String) : PyDict :=
  [("transformed_at", Value.str now), ("transformer_version", Value.str "1.0"),
   ("source_stage", Value.str "staged")]

/-- `Transformer.process_record_added_event` (transformer.py:26-84): only
`event == "record_added"` with `stage == "staged"` is processed — fetch the
staged snapshot, run the engine, store on `success and not skipped`, log on
`skipped`, and raise `Exception(f"Transformation failed: ...")` on failure;
every other event/stage combination logs `UNEXPECTED_CHANGE_EVENT` and
returns without touching the bus.  An `.error` models an exception leaving
the method (a failed staged fetch, or the explicit raise). -/
def Transformer.process_record_added_event (e : TransformEngine) (bus : BusState)
    (change_event : ChangeEvent) (now : String) : Except String (BusState × ProcessOutcome) :=
  if change_event.event = "record_added" ∧ change_event.stage = "staged" then
    let snapshot_id : SnapshotId := ⟨change_event.sid_ocid, change_event.sid_bid⟩
    match DataPipelineBus.get_snapshot_json bus snapshot_id "staged" with
    | .error err => .error err
    | .ok staged_data =>
      let result := e.transform_record snapshot_id staged_data
      if result.success && !result.skipped then
        let payload := match result.transformed_data with
          | some d => Value.dict d
          | Option.none => Value.none
        .ok (DataPipelineBus.post_snapshot_json bus snapshot_id (transformMetadata now) payload,
             .completed)
      else if result.skipped then
        .ok (bus, .skippedRecord result.skip_reason)
      else
        .error ("Exception: Transformation failed: " ++
          (match result.error_message with | some m => m | Option.none => "None"))
  else
    .ok (bus, .ignored)

/-! ## Batch handler (`lambda_handler.py`) -/

/-- One SQS record of the event.  `body` models `json.loads(record["body"])`:
`.ok v` is the decoded JSON document, `.error` a missing body or a decode
failure (either way the exception is caught by the record-level `except`). -/
structure SqsRecord where
  messageId : Option String := Option.none
  body : Except String Value

/-- The per-record result dict built by
`TransformerLambdaHandler._process_record`; optional keys are absent
(`Option.none`) when the corresponding return path does not set them. -/
structure RecordResult where
  recordId : Option String
  success : Bool
  skipped : Bool := false
  reason : Option String := Option.none
  error : Option String := Option.none
  ocid : Option Value := Option.none
  bid : Option Value := Option.none
  fields_transformed : Option Nat := Option.none

/-- Lines 110-127 of lambda_handler.py: extract `change`, `record_id`,
`ocid` and `bid` from the decoded message body, raising `ValueError` on a
missing piece (and AttributeError when a `.get` receiver is not a dict). -/
def parseSnapshotId (message_body : Value) : Except String SnapshotId :=
  match pyAttrGetD message_body "change" (Value.dict []) with
  | .error err => .error err
  | .ok change =>
    if !pyTruthy change then .error "ValueError: No change event found in message"
    else
      match pyAttrGetD change "record_id" (Value.dict []) with
      | .error err => .error err
      | .ok record_id =>
        if !pyTruthy record_id then .error "ValueError: No record_id found in change event"
        else
          match pyAttrGetD record_id "ocid" Value.none, pyAttrGetD record_id "bid" Value.none with
          | .error err, _ => .error err
          | .ok _, .error err => .error err
          | .ok ocid, .ok bid =>
            if !pyTruthy ocid || !pyTruthy bid then
              .error "ValueError: Invalid record_id: missing ocid or bid"
            else .ok ⟨ocid, bid⟩

/-- The body of `TransformerLambdaHandler._process_record` inside its `try`
(lambda_handler.py:108-195): parse the message, fetch the staged snapshot,
and run the already-transformed (CDC) check; if no transformed snapshot
exists the code reaches line 154, `self.transformer.transform_record(...)`
— but the `Transformer` class (transformer.py:17-84) defines no
`transform_record` method (the method of that name lives on
`TransformEngine`), so the attribute lookup raises and lines 156-195
(the engine call, the store write, the success result) are unreachable. -/
def TransformerLambdaHandler.process_record_checked (bus : BusState) (record : SqsRecord) :
    Except String (RecordResult × BusState) :=
  match record.body with
  | .error err => .error err
  | .ok message_body =>
    match parseSnapshotId message_body with
    | .error err => .error err
    | .ok snapshot_id =>
      match DataPipelineBus.get_snapshot_json bus snapshot_id "staged" with
      | .error err => .error err
      | .ok _staged_data =>
        match DataPipelineBus.get_snapshot_json bus snapshot_id "transformed" with
        | .ok _ =>
          .ok ({ recordId := record.messageId, success := true, skipped := true,
                 reason := some "Already transformed" }, bus)
        | .error _ =>
          .error "AttributeError: 'Transformer' object has no attribute 'transform_record'"

/-- `TransformerLambdaHandler._process_record` (lambda_handler.py:106-203):
the record-level `except Exception` turns any exception into a failure
entry for this record. -/
def TransformerLambdaHandler.process_record (bus : BusState) (record : SqsRecord) :
    RecordResult × BusState :=
  match TransformerLambdaHandler.process_record_checked bus record with
  | .ok r => r
  | .error err => ({ recordId := record.messageId, success := false, error := some err }, bus)

/-- The mutable state of the module-level handler singleton
(lambda_handler.py:20-28, 207): the `_initialized` flag and the bus. -/
structure TransformerLambdaHandler where
  handler_ready : Bool
  bus : BusState

/-- `TransformerLambdaHandler._initialize` (lambda_handler.py:30-53), with
the external constructions (`DataPipelineBus()`, config load,
`Transformer(...)`) taken as succeeding.  When `_initialized` is already
set the method returns at once.  Otherwise it sets `self._initialized =
True` (line 48) and then executes line 49,
`logger.info(..., data_registry_id=data_registry_id)` — but no name
`data_registry_id` is bound anywhere in the module, so evaluating the
keyword argument raises `NameError`, which the `except` re-raises. -/
def TransformerLambdaHandler.lazy_init (h : TransformerLambdaHandler) :
    TransformerLambdaHandler × Except String Unit :=
  if h.handler_ready then (h, .ok ())
  else ({ h with handler_ready := true },
        .error "NameError: name 'data_registry_id' is not defined")

/-- The response body of `handle_sqs_event` (`json.dumps` of the report or
of the internal-server-error document, modelled structurally). -/
inductive LambdaBody where
  | report (message : String) (total successful failed : Nat) (results : List RecordResult) :
      LambdaBody
  | internalError (error : String) (message : String) : LambdaBody

/-- The HTTP-shaped value returned to the Lambda runtime. -/
structure LambdaResponse where
  statusCode : Nat
  body : LambdaBody

/-- The `for record in event.get("Records", [])` loop of `handle_sqs_event`
(lambda_handler.py:62-72), threading the bus store left to right.
`_process_record` never raises (its own `except` catches everything), so
the loop's inner `try/except` adds nothing. -/
def processRecordsLoop (bus : BusState) : List SqsRecord → List RecordResult × BusState
  | [] => ([], bus)
  | record :: rest =>
    let step := TransformerLambdaHandler.process_record bus record
    let next := processRecordsLoop step.2 rest
    (step.1 :: next.1, next.2)

/-- `TransformerLambdaHandler.handle_sqs_event` (lambda_handler.py:55-104):
initialize, process every record collecting one result each, count
`successful = sum(1 for r in results if r.get("success", False))` and
`failed = len(results) - successful`, and return the 200 report; any
exception escaping that (in particular the initialization failure) is
turned into the 500 internal-server-error response. -/
def TransformerLambdaHandler.handle_sqs_event (h : TransformerLambdaHandler)
    (records : List SqsRecord) : TransformerLambdaHandler × LambdaResponse :=
  match h.lazy_init with
  | (h₁, .error err) => (h₁, ⟨500, .internalError "Internal server error" err⟩)
  | (h₁, .ok _) =>
    let pr := processRecordsLoop h₁.bus records
    let successful := (pr.1.filter fun r => r.success).length
    ({ h₁ with bus := pr.2 },
     ⟨200, .report "Transformation completed" pr.1.length successful
        (pr.1.length - successful) pr.1⟩)

/-! ## Derived predicates used by the statements -/

/-- Outcome shape 1: a transformed mapping is present, with `success=true`
and `skipped=false`. -/
def TransformationResult.dataOutcome (r : TransformationResult) : Prop :=
  (∃ td, r.transformed_data = some td) ∧ r.success = true ∧ r.skipped = false

/-- Outcome shape 2: the record was skipped, with `success=true`, a skip
reason, and no transformed data. -/
def TransformationResult.skipOutcome (r : TransformationResult) : Prop :=
  r.skipped = true ∧ r.success = true ∧ (∃ s, r.skip_reason = some s) ∧
  r.transformed_data = Option.none

/-- Outcome shape 3: the record failed, with a non-`None` error message, no
transformed data and `skipped=false`. -/
def TransformationResult.failOutcome (r : TransformationResult) : Prop :=
  r.success = false ∧ (∃ m, r.error_message = some m) ∧
  r.transformed_data = Option.none ∧ r.skipped = false

/-- The `field` entry of a skip-condition dict (`None` on a non-dict). -/
def condField (c : Value) : Value :=
  match c with
  | .dict cd => pyGet cd "field"
  | _ => Value.none

/-- Whether one skip condition fires on the staged dict `sd`: the condition
has a truthy `field` and `operator`, the operator is `"blank"`, and the
record's value at the field is falsy or whitespace-only — exactly the
decision of the loop body at engine.py:71-81 for a string-named field. -/
def condBlankMatch (sd : PyDict) (c : Value) : Bool :=
  match c with
  | .dict cd =>
    pyTruthy (pyGet cd "field") && pyTruthy (pyGet cd "operator") &&
    valueEqStr (pyGet cd "operator") "blank" &&
    (match pyGet cd "field" with
     | .str s => !pyTruthy (pyGet sd s) || pyStrip (pyStr (pyGet sd s)) = ""
     | _ => false)
  | _ => false

/-- A skip condition as configuration declares one: a dict whose `field` and
`operator` entries are strings. -/
def wellFormedCond (c : Value) : Prop :=
  ∃ cd f op, c = Value.dict cd ∧ pyGet cd "field" = Value.str f ∧
    pyGet cd "operator" = Value.str op

/-! ## Theorems -/

theorem skipConditionLoop_ok_true (data : Value) :
    ∀ (conds : List Value) (r : Option String),
      skipConditionLoop data conds = Except.ok (true, r) → ∃ s, r = some s := by
  intro conds
  induction conds with
  | nil => intro r h; simp [skipConditionLoop] at h
  | cons c rest ih =>
    intro r h
    cases c with
    | none => simp [skipConditionLoop] at h
    | str s => simp [skipConditionLoop] at h
    | int n => simp [skipConditionLoop] at h
    | bool b => simp [skipConditionLoop] at h
    | list l => simp [skipConditionLoop] at h
    | dict cd =>
      simp only [skipConditionLoop] at h
      split at h
      · exact ih r h
      · split at h
        · exact absurd h (by simp)
        · split at h
          · rw [Except.ok.injEq, Prod.mk.injEq] at h
            exact ⟨_, h.2.symm⟩
          · exact ih r h

theorem should_skip_record_ok_true (e : TransformEngine) (data : Value) (r : Option String)
    (h : e.should_skip_record data = Except.ok (true, r)) : ∃ s, r = some s := by
  unfold TransformEngine.should_skip_record at h
  split at h
  · exact absurd h (by simp)
  · split at h
    · exact absurd h (by simp)
    · exact skipConditionLoop_ok_true data _ r h

theorem transform_record_checked_shape (e : TransformEngine) (staged : Value) :
    (∃ s, e.transform_record_checked staged =
        Except.ok { success := true, skipped := true, skip_reason := some s }) ∨
    (∃ td, e.transform_record_checked staged =
        Except.ok { success := true, transformed_data := some td }) ∨
    (∃ msg, e.transform_record_checked staged = Except.error msg) := by
  cases hss : e.should_skip_record staged with
  | error msg =>
    right; right
    exact ⟨msg, by simp [TransformEngine.transform_record_checked, hss]⟩
  | ok p =>
    obtain ⟨b, r⟩ := p
    cases b
    · cases hit : pyItems (pyGetD e.config "company" (Value.dict [])) with
      | error msg =>
        right; right
        exact ⟨msg, by simp [TransformEngine.transform_record_checked, hss, hit]⟩
      | ok schema =>
        right; left
        exact ⟨transformFieldsLoop e staged schema [],
          by simp [TransformEngine.transform_record_checked, hss, hit]⟩
    · left
      obtain ⟨s, rfl⟩ := should_skip_record_ok_true e staged r hss
      exact ⟨s, by simp [TransformEngine.transform_record_checked, hss]⟩

/-- C4: every invocation of `TransformEngine.transform_record` lands in
exactly one of the three outcome shapes — transformed data present (with
`success=true`, `skipped=false`), skipped (with `success=true` and a skip
reason, no data), or failed (with a non-`None` error message, no data,
`skipped=false`). -/
theorem transform_record_outcome_trichotomy (e : TransformEngine) (sid : SnapshotId)
    (staged : Value) :
    ((e.transform_record sid staged).dataOutcome ∨
     (e.transform_record sid staged).skipOutcome ∨
     (e.transform_record sid staged).failOutcome) ∧
    ¬ ((e.transform_record sid staged).dataOutcome ∧ (e.transform_record sid staged).skipOutcome) ∧
    ¬ ((e.transform_record sid staged).dataOutcome ∧ (e.transform_record sid staged).failOutcome) ∧
    ¬ ((e.transform_record sid staged).skipOutcome ∧ (e.transform_record sid staged).failOutcome) := by
  have hshape := transform_record_checked_shape e staged
  rcases hshape with ⟨s, hs⟩ | ⟨td, hs⟩ | ⟨msg, hs⟩ <;>
    simp [TransformEngine.transform_record, hs, TransformationResult.dataOutcome,
      TransformationResult.skipOutcome, TransformationResult.failOutcome]

/-- C2: for every lookup-mapping strategy bound to a mapping table and every
input value, a `None` or empty-string input yields `None`; otherwise the
input is stripped of whitespace before lookup, a key present in the table
maps to that key's value, and an absent key returns the input unchanged. -/
theorem lookup_mapping_transform_contract (mapping_data : PyDict) (value : Value) :
    ((value.isNone || valueEqStr value "") = true →
        LookupMappingStrategy.transform mapping_data value = Value.none) ∧
    ((value.isNone || valueEqStr value "") = false →
        (∀ mapped, mapping_data.lookup (pyStrip (pyStr value)) = some mapped →
            LookupMappingStrategy.transform mapping_data value = mapped) ∧
        (mapping_data.lookup (pyStrip (pyStr value)) = Option.none →
            LookupMappingStrategy.transform mapping_data value = value)) := by
  constructor
  · intro h
    simp [LookupMappingStrategy.transform, h]
  · intro h
    constructor
    · intro mapped hm
      simp [LookupMappingStrategy.transform, h, pyGetD, hm]
    · intro hm
      simp [LookupMappingStrategy.transform, h, pyGetD, hm]

/-- C2 witness: the contract applied at a one-entry table, at a key present
after stripping, an absent key, and a `None` input. -/
theorem lookup_mapping_transform_contract_witness :
    LookupMappingStrategy.transform [("ACT", Value.str "Active")] (Value.str " ACT ") =
      Value.str "Active" ∧
    LookupMappingStrategy.transform [("ACT", Value.str "Active")] (Value.str "XYZ") =
      Value.str "XYZ" ∧
    LookupMappingStrategy.transform [("ACT", Value.str "Active")] Value.none = Value.none :=
  ⟨((lookup_mapping_transform_contract [("ACT", Value.str "Active")]
      (Value.str " ACT ")).2 rfl).1 (Value.str "Active") rfl,
   ((lookup_mapping_transform_contract [("ACT", Value.str "Active")]
      (Value.str "XYZ")).2 rfl).2 rfl,
   (lookup_mapping_transform_contract [("ACT", Value.str "Active")] Value.none).1 rfl⟩

/-- C5 counterexample: the date strategy performs no digit validation — the
8-character non-numeric input `"abcdefgh"` is rearranged to `"efgh-ab-cd"`
instead of yielding `None` as the claim requires. -/
theorem parse_date_nonnumeric_counterexample :
    ParseDateStrategy.transform (Value.str "abcdefgh") = Value.str "efgh-ab-cd" ∧
    ParseDateStrategy.transform (Value.str "abcdefgh") ≠ Value.none := by
  refine ⟨rfl, fun h => ?_⟩
  rw [show ParseDateStrategy.transform (Value.str "abcdefgh") = Value.str "efgh-ab-cd" from rfl] at h
  simp at h

/-- C5 amended: a falsy input or one whose string form does not have length
8 yields `None`; an 8-character truthy input is rearranged by position as
`YYYY-MM-DD` from `MMDDYYYY` slices without validating that the characters
are digits, and no exception escapes. -/
theorem parse_date_transform_amended (value : Value) :
    (pyTruthy value = false ∨ (pyStr value).length ≠ 8 →
        ParseDateStrategy.transform value = Value.none) ∧
    (pyTruthy value = true → (pyStr value).length = 8 →
        ParseDateStrategy.transform value =
          Value.str ((pyStr value).drop 4 ++ "-" ++ (pyStr value).take 2 ++ "-" ++
            ((pyStr value).drop 2).take 2)) := by
  constructor
  · rintro (h | h) <;> simp [ParseDateStrategy.transform, h]
  · intro h1 h2
    simp [ParseDateStrategy.transform, h1, h2]

/-- C5 witness: the amended statement applied at the spec's own examples. -/
theorem parse_date_transform_amended_witness :
    ParseDateStrategy.transform (Value.str "09012025") = Value.str "2025-09-01" ∧
    ParseDateStrategy.transform (Value.str "12312024") = Value.str "2024-12-31" ∧
    ParseDateStrategy.transform (Value.str "1234567") = Value.none ∧
    ParseDateStrategy.transform (Value.str "") = Value.none :=
  ⟨((parse_date_transform_amended (Value.str "09012025")).2 rfl rfl).trans rfl,
   ((parse_date_transform_amended (Value.str "12312024")).2 rfl rfl).trans rfl,
   (parse_date_transform_amended (Value.str "1234567")).1 (Or.inr (by decide)),
   (parse_date_transform_amended (Value.str "")).1 (Or.inl rfl)⟩

/-- C10: `transform_record` only reads its inputs — the state-passing form
returns the engine state and the staged data unchanged, and a second call
on the returned state yields the same result as the first. -/
theorem transform_record_frame_and_idempotent (e : TransformEngine) (sid : SnapshotId)
    (staged : Value) :
    e.transform_record_st sid staged = (e.transform_record sid staged, e, staged) ∧
    ((e.transform_record_st sid staged).2.1.transform_record_st sid
        (e.transform_record_st sid staged).2.2).1 = e.transform_record sid staged :=
  ⟨rfl, rfl⟩

/-- C1: evaluating `transform_record` at the failing input of the repo's own
unit test `test_transform_record_error_handling` — strategy instantiation
for `"unknown.strategy"` raises, yet the field appears in `transformed_data`
with the raw staged value `"test_value"` (the engine.py:121 fallback),
where the claim, the spec and the test require the field to be absent. -/
theorem transform_record_unknown_strategy_keeps_input :
    create_strategy (Value.str "unknown.strategy")
      [("input_source", Value.str "TEST_FIELD"),
       ("transformation_logic", Value.str "unknown.strategy")] [] =
      Except.error "UnknownStrategyError" ∧
    TransformEngine.transform_record
      ⟨[("validation_rules", Value.dict [("skip_conditions", Value.list [])]),
        ("company", Value.dict [("test_field", Value.dict
          [("input_source", Value.str "TEST_FIELD"),
           ("transformation_logic", Value.str "unknown.strategy")])])], []⟩
      ⟨Value.str "ocid:v1:co:test", Value.str "bid:v1:us_fl:test"⟩
      (Value.dict [("TEST_FIELD", Value.str "test_value")]) =
      { success := true, transformed_data := some [("test_field", Value.str "test_value")] } :=
  ⟨rfl, rfl⟩

/-- C7 counterexample: a fixed-value field spec lacking `fixed_value` is not
a startup-time error — `ValueError` is raised at strategy instantiation,
which happens inside `transform_record`, where it is caught and recovered
into a per-field omission: the record still succeeds with the field absent. -/
theorem fixed_value_missing_counterexample :
    create_strategy (Value.str "oc.fixed_value")
      [("transformation_logic", Value.str "oc.fixed_value")] [] =
      Except.error "ValueError: fixed_value is required for oc.fixed_value strategy" ∧
    TransformEngine.transform_record
      ⟨[("company", Value.dict [("jurisdiction_code", Value.dict
          [("transformation_logic", Value.str "oc.fixed_value")])])], []⟩
      ⟨Value.str "ocid:v1:co:x", Value.str "bid:v1:us_fl:x"⟩
      (Value.dict [("COR_NAME", Value.str "y")]) =
      { success := true, transformed_data := some [] } :=
  ⟨rfl, rfl⟩

/-- C7 amended: a fixed-value field spec lacking the `fixed_value` constant
raises `ValueError` from `FixedValueFactory.validate` when the strategy is
instantiated; instantiation happens per field inside `transform_record`
(there is no startup-time schema validation pass), and
`_apply_transformation` catches the error and falls back to the field's
resolved input value — so the configuration error is recovered into a
per-field fallback (an omission when the input is `None`), not surfaced as
a fatal startup error. -/
theorem fixed_value_missing_per_field_fallback (e : TransformEngine)
    (field_config : PyDict) (data : Value)
    (htl : pyGet field_config "transformation_logic" = Value.str "oc.fixed_value")
    (hmiss : field_config.lookup "fixed_value" = Option.none) :
    create_strategy (pyGet field_config "transformation_logic") field_config e.mapping_data =
      Except.error "ValueError: fixed_value is required for oc.fixed_value strategy" ∧
    e.apply_transformation field_config data =
      (if pyTruthy (pyGet field_config "input_source") then
        pyAttrGet data (pyGet field_config "input_source")
       else Except.ok Value.none) := by
  have hcs : create_strategy (pyGet field_config "transformation_logic") field_config
      e.mapping_data =
      Except.error "ValueError: fixed_value is required for oc.fixed_value strategy" := by
    rw [htl]
    rw [show create_strategy (Value.str "oc.fixed_value") field_config e.mapping_data =
        (match field_config.lookup "fixed_value" with
         | some v => Except.ok (Strategy.fixedValue v)
         | Option.none =>
            Except.error "ValueError: fixed_value is required for oc.fixed_value strategy")
        from rfl]
    rw [hmiss]
  refine ⟨hcs, ?_⟩
  unfold TransformEngine.apply_transformation
  rw [htl] at hcs ⊢
  rw [hcs, show (!pyTruthy (Value.str "oc.fixed_value")) = false from rfl]
  cases hin : (if pyTruthy (pyGet field_config "input_source") then
      pyAttrGet data (pyGet field_config "input_source")
    else Except.ok Value.none) with
  | error err => simp
  | ok input_value => simp

/-- C7 witness: the amended statement applied at a field spec with an input
source, showing the fallback to the raw staged value. -/
theorem fixed_value_missing_per_field_fallback_witness :
    create_strategy
      (pyGet [("transformation_logic", Value.str "oc.fixed_value"),
              ("input_source", Value.str "SRC")] "transformation_logic")
      [("transformation_logic", Value.str "oc.fixed_value"),
       ("input_source", Value.str "SRC")] ([] : PyDict) =
      Except.error "ValueError: fixed_value is required for oc.fixed_value strategy" ∧
    TransformEngine.apply_transformation ⟨[], []⟩
      [("transformation_logic", Value.str "oc.fixed_value"),
       ("input_source", Value.str "SRC")]
      (Value.dict [("SRC", Value.str "raw")]) =
      Except.ok (Value.str "raw") :=
  fixed_value_missing_per_field_fallback ⟨[], []⟩
    [("transformation_logic", Value.str "oc.fixed_value"), ("input_source", Value.str "SRC")]
    (Value.dict [("SRC", Value.str "raw")]) rfl rfl

theorem skipConditionLoop_wellformed_find (sd : PyDict) :
    ∀ (conds : List Value), (∀ c ∈ conds, wellFormedCond c) →
      skipConditionLoop (Value.dict sd) conds =
        (match conds.find? (condBlankMatch sd) with
         | some c => Except.ok (true, some ("Field " ++ pyStr (condField c) ++ " is blank"))
         | Option.none => Except.ok (false, Option.none)) := by
  intro conds
  induction conds with
  | nil => intro _; simp [skipConditionLoop]
  | cons c rest ih =>
    intro hwf
    obtain ⟨cd, f, op, rfl, hf, hop⟩ := hwf c (List.mem_cons_self c rest)
    have hrest := ih fun c' hc' => hwf c' (List.mem_cons_of_mem _ hc')
    simp only [skipConditionLoop, condBlankMatch, condField, List.find?, hf, hop]
    cases hbf : pyTruthy (Value.str f) with
    | false => simpa [hbf] using hrest
    | true =>
      cases hbop : pyTruthy (Value.str op) with
      | false => simpa [hbf, hbop] using hrest
      | true =>
        cases hbeq : valueEqStr (Value.str op) "blank" with
        | false => simpa [hbf, hbop, hbeq, pyAttrGet] using hrest
        | true =>
          cases hblank : (!pyTruthy (pyGet sd f) || pyStrip (pyStr (pyGet sd f)) = "") with
          | false => simpa [hbf, hbop, hbeq, hblank, pyAttrGet] using hrest
          | true => simp [hbf, hbop, hbeq, hblank, pyAttrGet, hf]

/-- C6: when the configured skip conditions are well-formed and some
condition with operator `"blank"` fires on the staged record (its named
field absent, falsy, or whitespace-only), `transform_record` returns the
skip outcome named after the first such condition in declared order, with
no transformed data. -/
theorem transform_record_blank_skip (e : TransformEngine) (sid : SnapshotId) (sd : PyDict)
    (vr : PyDict) (conds : List Value) (c : Value)
    (h1 : pyGetD e.config "validation_rules" (Value.dict []) = Value.dict vr)
    (h2 : pyGetD vr "skip_conditions" (Value.list []) = Value.list conds)
    (h3 : ∀ c' ∈ conds, wellFormedCond c')
    (h4 : conds.find? (condBlankMatch sd) = some c) :
    e.transform_record sid (Value.dict sd) =
      { success := true, skipped := true,
        skip_reason := some ("Field " ++ pyStr (condField c) ++ " is blank") } := by
  have hloop := skipConditionLoop_wellformed_find sd conds h3
  rw [h4] at hloop
  have hss : e.should_skip_record (Value.dict sd) =
      Except.ok (true, some ("Field " ++ pyStr (condField c) ++ " is blank")) := by
    unfold TransformEngine.should_skip_record
    rw [h1]
    simp only [pyAttrGetD]
    rw [h2]
    simp only [pyIter]
    exact hloop
  unfold TransformEngine.transform_record TransformEngine.transform_record_checked
  rw [hss]

/-- C6 witness: the blank-skip statement applied at the unit-test
configuration (two blank conditions) and a record whose `COR_NAME` is
empty. -/
theorem transform_record_blank_skip_witness :
    TransformEngine.transform_record
      ⟨[("validation_rules", Value.dict [("skip_conditions", Value.list
          [Value.dict [("field", Value.str "COR_NAME"), ("operator", Value.str "blank")],
           Value.dict [("field", Value.str "COR_NUMBER"), ("operator", Value.str "blank")]])]),
        ("company", Value.dict [])], []⟩
      ⟨Value.str "ocid:v1:co:test", Value.str "bid:v1:us_fl:test"⟩
      (Value.dict [("COR_NAME", Value.str ""), ("COR_NUMBER", Value.str "12345")]) =
      { success := true, skipped := true,
        skip_reason := some "Field COR_NAME is blank" } :=
  transform_record_blank_skip
    ⟨[("validation_rules", Value.dict [("skip_conditions", Value.list
        [Value.dict [("field", Value.str "COR_NAME"), ("operator", Value.str "blank")],
         Value.dict [("field", Value.str "COR_NUMBER"), ("operator", Value.str "blank")]])]),
      ("company", Value.dict [])], []⟩
    ⟨Value.str "ocid:v1:co:test", Value.str "bid:v1:us_fl:test"⟩
    [("COR_NAME", Value.str ""), ("COR_NUMBER", Value.str "12345")]
    [("skip_conditions", Value.list
        [Value.dict [("field", Value.str "COR_NAME"), ("operator", Value.str "blank")],
         Value.dict [("field", Value.str "COR_NUMBER"), ("operator", Value.str "blank")]])]
    [Value.dict [("field", Value.str "COR_NAME"), ("operator", Value.str "blank")],
     Value.dict [("field", Value.str "COR_NUMBER"), ("operator", Value.str "blank")]]
    (Value.dict [("field", Value.str "COR_NAME"), ("operator", Value.str "blank")])
    rfl rfl
    (by
      intro c' hc'
      simp only [List.mem_cons, List.not_mem_nil, or_false] at hc'
      rcases hc' with rfl | rfl
      · exact ⟨_, "COR_NAME", "blank", rfl, rfl, rfl⟩
      · exact ⟨_, "COR_NUMBER", "blank", rfl, rfl, rfl⟩)
    rfl

/-- C9 counterexample: through the SQS batch path a change event that is
not `record_added`/`staged` is not ignored — `_process_record` never
inspects `event` or `stage`, proceeds past the staged fetch, and reports a
failure entry for the record (where the claim requires a warning-and-ignore
terminal state with no error or failure reported). -/
theorem lambda_processes_non_actionable_event :
    TransformerLambdaHandler.process_record
      ⟨[((Value.str "oc9", Value.str "b9", "staged"), Value.dict [("F", Value.str "v")])]⟩
      { messageId := some "m9",
        body := Except.ok (Value.dict [("change", Value.dict
          [("event", Value.str "record_removed"), ("stage", Value.str "transformed"),
           ("record_id", Value.dict [("ocid", Value.str "oc9"),
                                     ("bid", Value.str "b9")])])]) } =
      ({ recordId := some "m9", success := false,
         error := some "AttributeError: 'Transformer' object has no attribute 'transform_record'" },
       ⟨[((Value.str "oc9", Value.str "b9", "staged"), Value.dict [("F", Value.str "v")])]⟩) :=
  rfl

/-- C9 amended: in `Transformer.process_record_added_event` the gate holds
exactly as claimed — any change event other than `record_added` from
`staged` is logged and ignored: no fetch, no transformation, no write, no
exception (the SQS batch path, by contrast, never inspects event or
stage). -/
theorem process_record_added_event_gate (e : TransformEngine) (bus : BusState)
    (change_event : ChangeEvent) (now : String)
    (h : ¬ (change_event.event = "record_added" ∧ change_event.stage = "staged")) :
    Transformer.process_record_added_event e bus change_event now =
      Except.ok (bus, ProcessOutcome.ignored) := by
  unfold Transformer.process_record_added_event
  rw [if_neg h]

/-- C9 witness: the gate applied at a `bundle_ready`/`parsed` change event. -/
theorem process_record_added_event_gate_witness :
    Transformer.process_record_added_event ⟨[], []⟩ ⟨[]⟩
      ⟨"bundle_ready", "parsed", Value.str "oc", Value.str "b"⟩ "2025-01-01T00:00:00Z" =
      Except.ok (⟨[]⟩, ProcessOutcome.ignored) :=
  process_record_added_event_gate ⟨[], []⟩ ⟨[]⟩
    ⟨"bundle_ready", "parsed", Value.str "oc", Value.str "b"⟩ "2025-01-01T00:00:00Z"
    (by simp)

/-- C3: evaluating the batch path at a valid `record_added`/`staged`
notification whose record is staged and not yet transformed — the
already-transformed check passes (no transformed snapshot), the code
reaches `self.transformer.transform_record`, which does not exist on
`Transformer`, and the record fails with AttributeError and no store write
(the bus is returned unchanged); when a transformed snapshot is present the
record is reported skipped as `"Already transformed"`, also with no write.
The write of a transformed payload is therefore unreachable through this
handler. -/
theorem process_record_never_writes :
    TransformerLambdaHandler.process_record
      ⟨[((Value.str "oc1", Value.str "b1", "staged"), Value.dict [("COR_NUMBER", Value.str "1")])]⟩
      { messageId := some "msg-1",
        body := Except.ok (Value.dict [("change", Value.dict
          [("event", Value.str "record_added"), ("stage", Value.str "staged"),
           ("record_id", Value.dict [("ocid", Value.str "oc1"),
                                     ("bid", Value.str "b1")])])]) } =
      ({ recordId := some "msg-1", success := false,
         error := some "AttributeError: 'Transformer' object has no attribute 'transform_record'" },
       ⟨[((Value.str "oc1", Value.str "b1", "staged"), Value.dict [("COR_NUMBER", Value.str "1")])]⟩) ∧
    TransformerLambdaHandler.process_record
      ⟨[((Value.str "oc1", Value.str "b1", "staged"), Value.dict [("COR_NUMBER", Value.str "1")]),
        ((Value.str "oc1", Value.str "b1", "transformed"), Value.dict [])]⟩
      { messageId := some "msg-1",
        body := Except.ok (Value.dict [("change", Value.dict
          [("event", Value.str "record_added"), ("stage", Value.str "staged"),
           ("record_id", Value.dict [("ocid", Value.str "oc1"),
                                     ("bid", Value.str "b1")])])]) } =
      ({ recordId := some "msg-1", success := true, skipped := true,
         reason := some "Already transformed" },
       ⟨[((Value.str "oc1", Value.str "b1", "staged"), Value.dict [("COR_NUMBER", Value.str "1")]),
         ((Value.str "oc1", Value.str "b1", "transformed"), Value.dict [])]⟩) :=
  ⟨rfl, rfl⟩

theorem process_record_checked_ok (bus : BusState) (record : SqsRecord)
    (res : RecordResult) (bus' : BusState)
    (h : TransformerLambdaHandler.process_record_checked bus record = Except.ok (res, bus')) :
    res.recordId = record.messageId ∧ bus' = bus := by
  unfold TransformerLambdaHandler.process_record_checked at h
  repeat' split at h
  any_goals exact Except.noConfusion h
  rw [Except.ok.injEq, Prod.mk.injEq] at h
  obtain ⟨hres, hbus⟩ := h
  subst hres hbus
  exact ⟨rfl, rfl⟩

theorem process_record_result_id (bus : BusState) (record : SqsRecord) :
    (TransformerLambdaHandler.process_record bus record).1.recordId = record.messageId := by
  unfold TransformerLambdaHandler.process_record
  cases hc : TransformerLambdaHandler.process_record_checked bus record with
  | error err => simp
  | ok p =>
    obtain ⟨res, b'⟩ := p
    simpa using (process_record_checked_ok bus record res b' hc).1

theorem processRecordsLoop_map_id (records : List SqsRecord) :
    ∀ bus : BusState, ((processRecordsLoop bus records).1).map (fun r => r.recordId) =
      records.map (fun r => r.messageId) := by
  induction records with
  | nil => intro bus; simp [processRecordsLoop]
  | cons r rest ih =>
    intro bus
    simp [processRecordsLoop, process_record_result_id, ih]

/-- C8: on the very first invocation of the fresh module-level handler the
batch is not processed at all — `_initialize` raises `NameError` on the
undefined `data_registry_id` (lambda_handler.py:49) and the handler returns
the 500 internal-error body with no report; on every later invocation
(`_initialized` already set) the claimed batch contract does hold: one
result entry per record in order, a 200 report with `total = N` and
`total = successful + failed`, and no exception out of the handler. -/
theorem handle_sqs_event_cold_error_and_warm_report :
    (TransformerLambdaHandler.handle_sqs_event ⟨false, ⟨[]⟩⟩
        [{ messageId := some "m-1",
           body := Except.ok (Value.dict [("change", Value.dict
             [("record_id", Value.dict [("ocid", Value.str "oc1"),
                                        ("bid", Value.str "b1")])])]) }] =
      (⟨true, ⟨[]⟩⟩, ⟨500, .internalError "Internal server error"
          "NameError: name 'data_registry_id' is not defined"⟩)) ∧
    ∀ (h : TransformerLambdaHandler) (records : List SqsRecord),
      h.handler_ready = true →
      ∃ results : List RecordResult,
        (h.handle_sqs_event records).2.statusCode = 200 ∧
        (h.handle_sqs_event records).2.body =
          .report "Transformation completed" records.length
            ((results.filter fun r => r.success).length)
            (records.length - (results.filter fun r => r.success).length) results ∧
        results.length = records.length ∧
        ((results.filter fun r => r.success).length) +
          (records.length - ((results.filter fun r => r.success).length)) = records.length ∧
        results.map (fun r => r.recordId) = records.map (fun r => r.messageId) := by
  constructor
  · rfl
  · intro h records hready
    have hmap := processRecordsLoop_map_id records h.bus
    have hlen : (processRecordsLoop h.bus records).1.length = records.length := by
      simpa using congrArg List.length hmap
    have hfil : ((processRecordsLoop h.bus records).1.filter fun r => r.success).length ≤
        records.length := hlen ▸ List.length_filter_le _ _
    refine ⟨(processRecordsLoop h.bus records).1, ?_, ?_, hlen, ?_, hmap⟩ <;>
      simp [TransformerLambdaHandler.handle_sqs_event, TransformerLambdaHandler.lazy_init,
        hready, hlen, Nat.add_sub_cancel' hfil]

/-- C8 witness: the warm-path contract applied at an initialized handler
and a two-record batch (one decodable record, one with a malformed body). -/
theorem handle_sqs_event_warm_report_witness :
    ∃ results : List RecordResult,
      (TransformerLambdaHandler.handle_sqs_event ⟨true, ⟨[]⟩⟩
          [{ messageId := some "w-1",
             body := Except.ok (Value.dict [("change", Value.dict
               [("record_id", Value.dict [("ocid", Value.str "oc1"),
                                          ("bid", Value.str "b1")])])]) },
           { messageId := some "w-2", body := Except.error "JSONDecodeError" }]).2.statusCode
        = 200 ∧
      (TransformerLambdaHandler.handle_sqs_event ⟨true, ⟨[]⟩⟩
          [{ messageId := some "w-1",
             body := Except.ok (Value.dict [("change", Value.dict
               [("record_id", Value.dict [("ocid", Value.str "oc1"),
                                          ("bid", Value.str "b1")])])]) },
           { messageId := some "w-2", body := Except.error "JSONDecodeError" }]).2.body =
        .report "Transformation completed"
          ([{ messageId := some "w-1",
              body := Except.ok (Value.dict [("change", Value.dict
                [("record_id", Value.dict [("ocid", Value.str "oc1"),
                                           ("bid", Value.str "b1")])])]) },
            { messageId := some "w-2",
              body := Except.error "JSONDecodeError" }] : List SqsRecord).length
          ((results.filter fun r => r.success).length)
          (([{ messageId := some "w-1",
               body := Except.ok (Value.dict [("change", Value.dict
                 [("record_id", Value.dict [("ocid", Value.str "oc1"),
                                            ("bid", Value.str "b1")])])]) },
             { messageId := some "w-2",
               body := Except.error "JSONDecodeError" }] : List SqsRecord).length -
            (results.filter fun r => r.success).length) results ∧
      results.length =
        ([{ messageId := some "w-1",
            body := Except.ok (Value.dict [("change", Value.dict
              [("record_id", Value.dict [("ocid", Value.str "oc1"),
                                         ("bid", Value.str "b1")])])]) },
          { messageId := some "w-2",
            body := Except.error "JSONDecodeError" }] : List SqsRecord).length ∧
      ((results.filter fun r => r.success).length) +
        (([{ messageId := some "w-1",
             body := Except.ok (Value.dict [("change", Value.dict
               [("record_id", Value.dict [("ocid", Value.str "oc1"),
                                          ("bid", Value.str "b1")])])]) },
           { messageId := some "w-2",
             body := Except.error "JSONDecodeError" }] : List SqsRecord).length -
          ((results.filter fun r => r.success).length)) =
        ([{ messageId := some "w-1",
            body := Except.ok (Value.dict [("change", Value.dict
              [("record_id", Value.dict [("ocid", Value.str "oc1"),
                                         ("bid", Value.str "b1")])])]) },
          { messageId := some "w-2",
            body := Except.error "JSONDecodeError" }] : List SqsRecord).length ∧
      results.map (fun r => r.recordId) =
        ([{ messageId := some "w-1",
            body := Except.ok (Value.dict [("change", Value.dict
              [("record_id", Value.dict [("ocid", Value.str "oc1"),
                                         ("bid", Value.str "b1")])])]) },
          { messageId := some "w-2",
            body := Except.error "JSONDecodeError" }] : List SqsRecord).map
          (fun r => r.messageId) :=
  handle_sqs_event_cold_error_and_warm_report.2 ⟨true, ⟨[]⟩⟩
    [{ messageId := some "w-1",
       body := Except.ok (Value.dict [("change", Value.dict
         [("record_id", Value.dict [("ocid", Value.str "oc1"),
                                    ("bid", Value.str "b1")])])]) },
     { messageId := some "w-2", body := Except.error "JSONDecodeError" }] rfl
